import Mathlib

/-!
Shallow embedding of the TestFlight-Monitor core (src/monitor.py,
src/notifications.py) together with a spec-modelled Scheduler, and proofs
of the behavioural claims about the classifier, the availability cache,
the notifier cooldown and the scheduler backoff.
-/

set_option maxRecDepth 8000

namespace TFM

/- ## Python-style helpers -/

/-- Boolean test that the pattern list is a prefix of the second list. -/
def prefix_chars : List Char → List Char → Bool
  | [], _ => true
  | _ :: _, [] => false
  | p :: ps, c :: cs => (p == c) && prefix_chars ps cs

/-- Occurrence of a character pattern anywhere in a list, i.e. the
Python `pat in s` substring test on character sequences. -/
def chars_contains (pat : List Char) : List Char → Bool
  | [] => prefix_chars pat []
  | c :: rest => prefix_chars pat (c :: rest) || chars_contains pat rest

/-- Python substring test `pat in s`. -/
def str_contains (s pat : String) : Bool :=
  chars_contains pat.data s.data

/-- Python `str.lower()` (ASCII case folding, as in the pages handled). -/
def py_lower (s : String) : String :=
  ⟨s.data.map Char.toLower⟩

/- ## Classifier: TestFlightMonitor._interpret_page (src/monitor.py) -/

/-- The positive marker list of `_interpret_page`. -/
def positive_markers : List String :=
  ["join the beta", "accepting testers", "beta signup", "open beta"]

/-- The negative marker list of `_interpret_page`. -/
def negative_markers : List String :=
  ["beta is full", "currently full", "this beta is full",
   "no longer accepting new testers", "this beta isn\x27t accepting",
   "beta has ended", "not available", "unavailable"]

/-- `TestFlightMonitor._interpret_page`: lower-case the page, return
false on any negative marker, else true on any positive marker, else
false. -/
def interpret_page (html : String) : Bool :=
  let lowered := py_lower html
  if negative_markers.any (fun n => str_contains lowered n) then false
  else if positive_markers.any (fun p => str_contains lowered p) then true
  else false

/- ## Association lists, modelling Python dicts keyed by strings -/

/-- Python `d.get(key)`. -/
def lookupAssoc {α : Type} : List (String × α) → String → Option α
  | [], _ => none
  | (k, v) :: rest, key => if k = key then some v else lookupAssoc rest key

/-- Python `d[key] = v`. -/
def insertAssoc {α : Type} : List (String × α) → String → α → List (String × α)
  | [], key, v => [(key, v)]
  | (k, w) :: rest, key, v =>
      if k = key then (key, v) :: rest else (k, w) :: insertAssoc rest key v

theorem lookup_insert_self {α : Type} (m : List (String × α)) (k : String) (v : α) :
    lookupAssoc (insertAssoc m k v) k = some v := by
  induction m with
  | nil => simp [insertAssoc, lookupAssoc]
  | cons hd tl ih =>
      obtain ⟨k0, v0⟩ := hd
      by_cases h : k0 = k
      · simp [insertAssoc, lookupAssoc, h]
      · simp [insertAssoc, lookupAssoc, h, ih]

theorem lookup_insert_other {α : Type} (m : List (String × α)) (k k0 : String) (v : α)
    (h : k0 ≠ k) : lookupAssoc (insertAssoc m k v) k0 = lookupAssoc m k0 := by
  have hne : ¬ k = k0 := fun hh => h hh.symm
  induction m with
  | nil => simp [insertAssoc, lookupAssoc, hne]
  | cons hd tl ih =>
      obtain ⟨k1, v1⟩ := hd
      by_cases h1 : k1 = k
      · subst h1
        simp [insertAssoc, lookupAssoc, hne]
      · simp [insertAssoc, lookupAssoc, h1, ih]

/- ## Python exception model -/

/-- Exceptions observable in the notification path: `apprise.AppriseException`
and every other `Exception`. -/
inductive PyExc where
  | apprise (msg : String)
  | other (msg : String)
deriving DecidableEq, Repr

/- ## Notifier: NotificationManager (src/notifications.py) -/

/-- State of a `NotificationManager`: the `last_notification` dict
(app id to timestamp of the last non-skipped call), the cooldown in
seconds, and the Apprise channels added by `_setup_notifications`. -/
structure NotifState where
  last_notification : List (String × Int)
  cooldown : Int
  channels : List String
deriving DecidableEq, Repr

/-- Result of the `apprise_obj.notify(...)` collaborator call inside the
`try` block of `send_notification`: return a success flag, or raise. -/
inductive AppriseCallOutcome where
  | returns (success : Bool)
  | raisesApprise (msg : String)
  | raisesOther (msg : String)
deriving DecidableEq, Repr

/-- Python truthiness of the `Optional[str]` argument `app_id`. -/
def py_truthy : Option String → Bool
  | none => false
  | some s => !s.isEmpty

/-- Observable outcome of one `send_notification` call: the state after
the call, whether the Apprise dispatch call was reached (not skipped by
the cooldown gate), and how many configured channels that call
contacts. -/
structure SendResult where
  notif : NotifState
  invoked : Bool
  attempts : Nat
deriving DecidableEq, Repr

/-- `NotificationManager.send_notification`: the cooldown gate (skip and
return when a record exists and `now - last < cooldown`, otherwise write
`last_notification[app_id] = now` for a truthy `app_id`), then the
`try` block around `apprise_obj.notify` whose `except` clauses catch
`apprise.AppriseException` and `Exception`.  A raised exception would be
an `Except.error`. -/
def send_notification (st : NotifState) (now : Int) (app_id : Option String)
    (outcome : AppriseCallOutcome) : Except PyExc SendResult :=
  let gate : Option NotifState :=
    if py_truthy app_id then
      let aid := app_id.getD ""
      match lookupAssoc st.last_notification aid with
      | some last_sent =>
          if now - last_sent < st.cooldown then none
          else some { st with
            last_notification := insertAssoc st.last_notification aid now }
      | none => some { st with
            last_notification := insertAssoc st.last_notification aid now }
    else some st
  match gate with
  | none => .ok { notif := st, invoked := false, attempts := 0 }
  | some st1 =>
      let tried : Except PyExc Bool :=
        match outcome with
        | .returns b => .ok b
        | .raisesApprise m => .error (.apprise m)
        | .raisesOther m => .error (.other m)
      match tried with
      | .ok _ =>
          .ok { notif := st1, invoked := true, attempts := st1.channels.length }
      | .error (.apprise _) =>
          .ok { notif := st1, invoked := true, attempts := st1.channels.length }
      | .error (.other _) =>
          .ok { notif := st1, invoked := true, attempts := st1.channels.length }

/-- Total form of `send_notification`, defined by extracting the `.ok`
payload; `send_notification_never_raises` shows the default branch is
unreachable. -/
def send_notification_run (st : NotifState) (now : Int) (app_id : Option String)
    (outcome : AppriseCallOutcome) : SendResult :=
  match send_notification st now app_id outcome with
  | .ok r => r
  | .error _ => { notif := st, invoked := false, attempts := 0 }

theorem send_notification_never_raises (st : NotifState) (now : Int)
    (app_id : Option String) (outcome : AppriseCallOutcome) :
    send_notification st now app_id outcome =
      .ok (send_notification_run st now app_id outcome) := by
  unfold send_notification_run send_notification
  cases outcome <;> dsimp only <;> split <;> rfl

theorem py_truthy_of_ne (a : String) (ha : a ≠ "") : py_truthy (some a) = true := by
  have h0 : a.isEmpty = false := by
    cases h : a.isEmpty with
    | false => rfl
    | true => exact absurd ((String.isEmpty_iff a).mp h) ha
  simp [py_truthy, h0]

/-- A `send_notification` call carrying no app id bypasses the cooldown
gate and touches no record. -/
theorem send_run_none (st : NotifState) (now : Int) (o : AppriseCallOutcome) :
    send_notification_run st now none o =
      { notif := st, invoked := true, attempts := st.channels.length } := by
  unfold send_notification_run send_notification
  cases o <;> rfl

/-- A `send_notification` call with a truthy app id and no prior record
dispatches and records the current time. -/
theorem send_run_miss (st : NotifState) (now : Int) (a : String)
    (o : AppriseCallOutcome) (ha : a ≠ "")
    (hl : lookupAssoc st.last_notification a = none) :
    send_notification_run st now (some a) o =
      { notif := { st with
          last_notification := insertAssoc st.last_notification a now },
        invoked := true, attempts := st.channels.length } := by
  unfold send_notification_run send_notification
  rw [py_truthy_of_ne a ha]
  simp only [Option.getD_some, if_pos]
  rw [hl]
  cases o <;> rfl

/-- A `send_notification` call inside the cooldown window skips
entirely: no dispatch, no state change. -/
theorem send_run_skip (st : NotifState) (now : Int) (a : String)
    (o : AppriseCallOutcome) (last_sent : Int) (ha : a ≠ "")
    (hl : lookupAssoc st.last_notification a = some last_sent)
    (hcd : now - last_sent < st.cooldown) :
    send_notification_run st now (some a) o =
      { notif := st, invoked := false, attempts := 0 } := by
  unfold send_notification_run send_notification
  rw [py_truthy_of_ne a ha]
  simp only [Option.getD_some, if_pos]
  rw [hl]
  simp [hcd]

/-- A `send_notification` call with a prior record outside the cooldown
window dispatches and overwrites the record. -/
theorem send_run_hit_pass (st : NotifState) (now : Int) (a : String)
    (o : AppriseCallOutcome) (last_sent : Int) (ha : a ≠ "")
    (hl : lookupAssoc st.last_notification a = some last_sent)
    (hcd : ¬ now - last_sent < st.cooldown) :
    send_notification_run st now (some a) o =
      { notif := { st with
          last_notification := insertAssoc st.last_notification a now },
        invoked := true, attempts := st.channels.length } := by
  unfold send_notification_run send_notification
  rw [py_truthy_of_ne a ha]
  simp only [Option.getD_some, if_pos]
  rw [hl]
  simp only [if_neg hcd]
  cases o <;> rfl

theorem send_run_pass (st : NotifState) (now : Int) (a : String)
    (o : AppriseCallOutcome) (ha : a ≠ "")
    (hgate : ∀ last_sent, lookupAssoc st.last_notification a = some last_sent →
      st.cooldown ≤ now - last_sent) :
    send_notification_run st now (some a) o =
      { notif := { st with
          last_notification := insertAssoc st.last_notification a now },
        invoked := true, attempts := st.channels.length } := by
  cases hl : lookupAssoc st.last_notification a with
  | none => exact send_run_miss st now a o ha hl
  | some last_sent =>
      exact send_run_hit_pass st now a o last_sent ha hl
        (not_lt.mpr (hgate last_sent hl))

theorem send_run_invoked_gate (st : NotifState) (now : Int) (a : String)
    (o : AppriseCallOutcome) (u : Int) (ha : a ≠ "")
    (hl : lookupAssoc st.last_notification a = some u)
    (hi : (send_notification_run st now (some a) o).invoked = true) :
    st.cooldown ≤ now - u := by
  by_contra hcd
  rw [send_run_skip st now a o u ha hl (not_le.mp hcd)] at hi
  exact Bool.false_ne_true hi

theorem send_run_record_after (st : NotifState) (now : Int) (a : String)
    (o : AppriseCallOutcome) (ha : a ≠ "")
    (hi : (send_notification_run st now (some a) o).invoked = true) :
    lookupAssoc (send_notification_run st now (some a) o).notif.last_notification a
      = some now := by
  cases hl : lookupAssoc st.last_notification a with
  | none =>
      rw [send_run_miss st now a o ha hl]
      exact lookup_insert_self _ _ _
  | some last_sent =>
      by_cases hcd : now - last_sent < st.cooldown
      · rw [send_run_skip st now a o last_sent ha hl hcd] at hi
        exact absurd hi Bool.false_ne_true
      · rw [send_run_hit_pass st now a o last_sent ha hl hcd]
        exact lookup_insert_self _ _ _

theorem send_run_cooldown (st : NotifState) (now : Int) (i : Option String)
    (o : AppriseCallOutcome) :
    (send_notification_run st now i o).notif.cooldown = st.cooldown := by
  cases i with
  | none => rw [send_run_none]
  | some b =>
      by_cases hb : b = ""
      · subst hb
        unfold send_notification_run send_notification
        cases o <;> rfl
      · cases hl : lookupAssoc st.last_notification b with
        | none => rw [send_run_miss st now b o hb hl]
        | some last_sent =>
            by_cases hcd : now - last_sent < st.cooldown
            · rw [send_run_skip st now b o last_sent hb hl hcd]
            · rw [send_run_hit_pass st now b o last_sent hb hl hcd]

theorem send_run_channels (st : NotifState) (now : Int) (i : Option String)
    (o : AppriseCallOutcome) :
    (send_notification_run st now i o).notif.channels = st.channels := by
  cases i with
  | none => rw [send_run_none]
  | some b =>
      by_cases hb : b = ""
      · subst hb
        unfold send_notification_run send_notification
        cases o <;> rfl
      · cases hl : lookupAssoc st.last_notification b with
        | none => rw [send_run_miss st now b o hb hl]
        | some last_sent =>
            by_cases hcd : now - last_sent < st.cooldown
            · rw [send_run_skip st now b o last_sent hb hl hcd]
            · rw [send_run_hit_pass st now b o last_sent hb hl hcd]

/-- A call that is not an invoked call for id `a` leaves the record for
`a` unchanged. -/
theorem send_run_lookup_preserved (st : NotifState) (now : Int) (i : Option String)
    (o : AppriseCallOutcome) (a : String) (ha : a ≠ "")
    (h : ¬(i = some a ∧ (send_notification_run st now i o).invoked = true)) :
    lookupAssoc (send_notification_run st now i o).notif.last_notification a
      = lookupAssoc st.last_notification a := by
  cases i with
  | none => rw [send_run_none]
  | some b =>
      by_cases hb : b = ""
      · subst hb
        unfold send_notification_run send_notification
        cases o <;> rfl
      · by_cases hba : b = a
        · subst hba
          have hni : (send_notification_run st now (some b) o).invoked = false := by
            cases hv : (send_notification_run st now (some b) o).invoked with
            | false => rfl
            | true => exact absurd ⟨rfl, hv⟩ h
          cases hl : lookupAssoc st.last_notification b with
          | none =>
              rw [send_run_miss st now b o hb hl] at hni
              exact Bool.noConfusion hni
          | some last_sent =>
              by_cases hcd : now - last_sent < st.cooldown
              · rw [send_run_skip st now b o last_sent hb hl hcd]
                exact hl
              · rw [send_run_hit_pass st now b o last_sent hb hl hcd] at hni
                exact Bool.noConfusion hni
        · have hne : a ≠ b := fun hh => hba hh.symm
          cases hl : lookupAssoc st.last_notification b with
          | none =>
              rw [send_run_miss st now b o hb hl]
              exact lookup_insert_other _ _ _ _ hne
          | some last_sent =>
              by_cases hcd : now - last_sent < st.cooldown
              · rw [send_run_skip st now b o last_sent hb hl hcd]
              · rw [send_run_hit_pass st now b o last_sent hb hl hcd]
                exact lookup_insert_other _ _ _ _ hne

/- ## Traces of notify calls -/

/-- One `send_notification` call in a trace: its wall-clock time, the
`app_id` argument and the Apprise collaborator outcome. -/
structure NotifCall where
  now : Int
  app_id : Option String
  outcome : AppriseCallOutcome
deriving DecidableEq, Repr

/-- Timestamps of the calls in a trace that dispatch for item `a`,
i.e. carry `app_id = a` and pass the cooldown gate. -/
def dispatched_times (a : String) (st : NotifState) : List NotifCall → List Int
  | [] => []
  | c :: rest =>
      let r := send_notification_run st c.now c.app_id c.outcome
      if c.app_id = some a ∧ r.invoked = true then
        c.now :: dispatched_times a r.notif rest
      else dispatched_times a r.notif rest

/-- If item `a` has a record at least `t` and every call in the trace
happens at or after `t`, every dispatch for `a` happens at least one
cooldown after `t`. -/
theorem dispatched_ge_record (a : String) (ha : a ≠ "") (cd : Int) :
    ∀ (calls : List NotifCall) (st : NotifState) (t : Int),
      st.cooldown = cd →
      (∃ u, lookupAssoc st.last_notification a = some u ∧ t ≤ u) →
      (∀ c ∈ calls, t ≤ c.now) →
      ∀ x ∈ dispatched_times a st calls, t + cd ≤ x := by
  intro calls
  induction calls with
  | nil => intro st t _ _ _ x hx; simp [dispatched_times] at hx
  | cons c rest ih =>
      intro st t hcd ⟨u, hu, htu⟩ htimes x hx
      rw [dispatched_times] at hx
      by_cases hdisp : c.app_id = some a ∧
          (send_notification_run st c.now c.app_id c.outcome).invoked = true
      · rw [if_pos hdisp] at hx
        obtain ⟨hid, hinv⟩ := hdisp
        rw [hid] at hinv
        rcases List.mem_cons.mp hx with hx0 | hx1
        · subst hx0
          have hgap := send_run_invoked_gate st c.now a c.outcome u ha hu hinv
          rw [hcd] at hgap
          have hct : t ≤ c.now := htimes c (List.mem_cons_self _ _)
          omega
        · have hrec := send_run_record_after st c.now a c.outcome ha hinv
          refine ih (send_notification_run st c.now c.app_id c.outcome).notif t
            ?_ ?_ ?_ x hx1
          · rw [send_run_cooldown]; exact hcd
          · refine ⟨c.now, ?_, htimes c (List.mem_cons_self _ _)⟩
            rw [hid]; exact hrec
          · intro d hd; exact htimes d (List.mem_cons_of_mem c hd)
      · rw [if_neg hdisp] at hx
        have hpres := send_run_lookup_preserved st c.now c.app_id c.outcome a ha hdisp
        refine ih (send_notification_run st c.now c.app_id c.outcome).notif t
          ?_ ?_ ?_ x hx
        · rw [send_run_cooldown]; exact hcd
        · exact ⟨u, by rw [hpres]; exact hu, htu⟩
        · intro d hd; exact htimes d (List.mem_cons_of_mem c hd)

/-- In any trace of notify calls with nondecreasing wall-clock times,
the dispatches for a fixed item are pairwise at least one cooldown
apart. -/
theorem dispatched_times_pairwise (a : String) (ha : a ≠ "") (cd : Int) :
    ∀ (calls : List NotifCall) (st : NotifState),
      st.cooldown = cd →
      List.Pairwise (fun c d => c.now ≤ d.now) calls →
      List.Pairwise (fun x y => x + cd ≤ y) (dispatched_times a st calls) := by
  intro calls
  induction calls with
  | nil => intro st _ _; simp [dispatched_times]
  | cons c rest ih =>
      intro st hcd hmono
      rw [List.pairwise_cons] at hmono
      obtain ⟨hhead, htail⟩ := hmono
      rw [dispatched_times]
      by_cases hdisp : c.app_id = some a ∧
          (send_notification_run st c.now c.app_id c.outcome).invoked = true
      · rw [if_pos hdisp]
        obtain ⟨hid, hinv⟩ := hdisp
        rw [hid] at hinv
        refine List.pairwise_cons.mpr ⟨?_, ?_⟩
        · intro x hx
          have hrec := send_run_record_after st c.now a c.outcome ha hinv
          refine dispatched_ge_record a ha cd _
            (send_notification_run st c.now c.app_id c.outcome).notif c.now
            ?_ ?_ ?_ x hx
          · rw [send_run_cooldown]; exact hcd
          · refine ⟨c.now, ?_, le_refl c.now⟩
            rw [hid]; exact hrec
          · exact hhead
        · refine ih (send_notification_run st c.now c.app_id c.outcome).notif
            ?_ htail
          rw [send_run_cooldown]; exact hcd
      · rw [if_neg hdisp]
        refine ih (send_notification_run st c.now c.app_id c.outcome).notif
          ?_ htail
        rw [send_run_cooldown]; exact hcd

/- ## Fetcher path: TestFlightMonitor._fetch_availability (src/monitor.py) -/

/-- Outcome of the HTTP interaction inside `_fetch_availability`: a
response with a status code and page text, or an exception raised by the
transport (timeout, connection error, decoding error, ...). -/
inductive FetchOutcome where
  | response (status : Int) (body : String)
  | raises (msg : String)
deriving DecidableEq, Repr

/-- Body of the `try` block of `_fetch_availability`: raise when the
session is not initialized, return `false` on a non-200 status, else
classify the page text; transport failures raise. -/
def fetch_availability_try (session : Bool) (outcome : FetchOutcome) :
    Except PyExc Bool :=
  if !session then .error (.other "Session not initialized")
  else
    match outcome with
    | .response status body =>
        if status ≠ 200 then .ok false else .ok (interpret_page body)
    | .raises m => .error (.other m)

/-- `TestFlightMonitor._fetch_availability`: the `try` body with the
blanket `except Exception` handler that logs a warning and returns
`False`. -/
def fetch_availability (session : Bool) (outcome : FetchOutcome) : Bool :=
  match fetch_availability_try session outcome with
  | .ok b => b
  | .error _ => false

/- ## Availability cache: TestFlightMonitor._check_single_app -/

/-- The per-app result dict built by `_check_single_app`. -/
structure AppResult where
  app_id : String
  available : Bool
  checked_at : Int
deriving DecidableEq, Repr

/-- A `_cache` entry: `{"timestamp": now, "data": data}`. -/
structure CacheEntry where
  timestamp : Int
  data : AppResult
deriving DecidableEq, Repr

/-- `TestFlightMonitor` state: the `_cache` dict and the `_cache_ttl`
duration (in the same time unit as the timestamps). -/
structure MonitorState where
  cache : List (String × CacheEntry)
  cache_ttl : Int
deriving DecidableEq, Repr

/-- Observable outcome of one `_check_single_app` call: the returned
data dict, the monitor and notifier states after the call, whether the
fetch was performed, and whether `send_notification` was called. -/
structure CheckResult where
  data : AppResult
  monitor : MonitorState
  notif : NotifState
  fetched : Bool
  notified : Bool
deriving DecidableEq, Repr

/-- The cache-miss path of `_check_single_app`: fetch, store the verdict
with the current timestamp, and call
`notification_manager.send_notification` when the verdict is true.  An
exception from the notifier would propagate as `Except.error`. -/
def check_fresh (session : Bool) (mst : MonitorState) (nst : NotifState)
    (now : Int) (app_id : String) (fo : FetchOutcome)
    (ao : AppriseCallOutcome) : Except PyExc CheckResult :=
  let available := fetch_availability session fo
  let data : AppResult := { app_id := app_id, available := available,
                            checked_at := now }
  let mst1 : MonitorState := { mst with
    cache := insertAssoc mst.cache app_id { timestamp := now, data := data } }
  if available then
    match send_notification nst now (some app_id) ao with
    | .ok r => .ok { data := data, monitor := mst1, notif := r.notif,
                     fetched := true, notified := true }
    | .error e => .error e
  else
    .ok { data := data, monitor := mst1, notif := nst,
          fetched := true, notified := false }

/-- `TestFlightMonitor._check_single_app`: return the cached data when a
cache entry exists and is younger than the TTL; otherwise take the
cache-miss path `check_fresh`. -/
def check_single_app (session : Bool) (mst : MonitorState) (nst : NotifState)
    (now : Int) (app_id : String) (fo : FetchOutcome) (ao : AppriseCallOutcome) :
    Except PyExc CheckResult :=
  match lookupAssoc mst.cache app_id with
  | some cached =>
      if now - cached.timestamp < mst.cache_ttl then
        .ok { data := cached.data, monitor := mst, notif := nst,
              fetched := false, notified := false }
      else check_fresh session mst nst now app_id fo ao
  | none => check_fresh session mst nst now app_id fo ao

/-- `check_fresh` on a true verdict: store and notify. -/
theorem check_fresh_true (session : Bool) (mst : MonitorState) (nst : NotifState)
    (now : Int) (app_id : String) (fo : FetchOutcome) (ao : AppriseCallOutcome)
    (h : fetch_availability session fo = true) :
    check_fresh session mst nst now app_id fo ao =
      .ok ⟨⟨app_id, true, now⟩,
           ⟨insertAssoc mst.cache app_id ⟨now, ⟨app_id, true, now⟩⟩, mst.cache_ttl⟩,
           (send_notification_run nst now (some app_id) ao).notif,
           true, true⟩ := by
  unfold check_fresh
  rw [h, send_notification_never_raises]
  rfl

/-- `check_fresh` on a false verdict: store, do not notify. -/
theorem check_fresh_false (session : Bool) (mst : MonitorState) (nst : NotifState)
    (now : Int) (app_id : String) (fo : FetchOutcome) (ao : AppriseCallOutcome)
    (h : fetch_availability session fo = false) :
    check_fresh session mst nst now app_id fo ao =
      .ok ⟨⟨app_id, false, now⟩,
           ⟨insertAssoc mst.cache app_id ⟨now, ⟨app_id, false, now⟩⟩, mst.cache_ttl⟩,
           nst, true, false⟩ := by
  unfold check_fresh
  rw [h]
  rfl

theorem check_fresh_is_ok (session : Bool) (mst : MonitorState) (nst : NotifState)
    (now : Int) (app_id : String) (fo : FetchOutcome) (ao : AppriseCallOutcome) :
    ∃ r, check_fresh session mst nst now app_id fo ao = .ok r ∧
      r.fetched = true ∧ r.data.app_id = app_id ∧ r.data.checked_at = now ∧
      r.data.available = fetch_availability session fo ∧
      r.monitor = ⟨insertAssoc mst.cache app_id ⟨now, r.data⟩, mst.cache_ttl⟩ := by
  cases h : fetch_availability session fo with
  | true =>
      exact ⟨_, check_fresh_true session mst nst now app_id fo ao h,
        rfl, rfl, rfl, rfl, rfl⟩
  | false =>
      exact ⟨_, check_fresh_false session mst nst now app_id fo ao h,
        rfl, rfl, rfl, rfl, rfl⟩

/-- Valid cache hit: `_check_single_app` returns the stored data and
changes nothing, without consulting the fetch or dispatch oracles. -/
theorem check_single_hit (session : Bool) (mst : MonitorState) (nst : NotifState)
    (now : Int) (app_id : String) (fo : FetchOutcome) (ao : AppriseCallOutcome)
    (cached : CacheEntry) (hl : lookupAssoc mst.cache app_id = some cached)
    (hts : now - cached.timestamp < mst.cache_ttl) :
    check_single_app session mst nst now app_id fo ao =
      .ok { data := cached.data, monitor := mst, notif := nst,
            fetched := false, notified := false } := by
  unfold check_single_app
  rw [hl]
  simp [hts]

/-- Cache miss: `_check_single_app` takes the fresh path. -/
theorem check_single_miss (session : Bool) (mst : MonitorState) (nst : NotifState)
    (now : Int) (app_id : String) (fo : FetchOutcome) (ao : AppriseCallOutcome)
    (hl : lookupAssoc mst.cache app_id = none) :
    check_single_app session mst nst now app_id fo ao =
      check_fresh session mst nst now app_id fo ao := by
  unfold check_single_app
  rw [hl]

/-- Stale entry: `_check_single_app` takes the fresh path. -/
theorem check_single_stale (session : Bool) (mst : MonitorState) (nst : NotifState)
    (now : Int) (app_id : String) (fo : FetchOutcome) (ao : AppriseCallOutcome)
    (cached : CacheEntry) (hl : lookupAssoc mst.cache app_id = some cached)
    (hts : ¬ now - cached.timestamp < mst.cache_ttl) :
    check_single_app session mst nst now app_id fo ao =
      check_fresh session mst nst now app_id fo ao := by
  unfold check_single_app
  rw [hl]
  simp [hts]

theorem check_single_is_ok (session : Bool) (mst : MonitorState) (nst : NotifState)
    (now : Int) (app_id : String) (fo : FetchOutcome) (ao : AppriseCallOutcome) :
    ∃ r, check_single_app session mst nst now app_id fo ao = .ok r := by
  cases hl : lookupAssoc mst.cache app_id with
  | some cached =>
      by_cases hts : now - cached.timestamp < mst.cache_ttl
      · exact ⟨_, check_single_hit session mst nst now app_id fo ao cached hl hts⟩
      · rw [check_single_stale session mst nst now app_id fo ao cached hl hts]
        obtain ⟨r, hr, -⟩ := check_fresh_is_ok session mst nst now app_id fo ao
        exact ⟨r, hr⟩
  | none =>
      rw [check_single_miss session mst nst now app_id fo ao hl]
      obtain ⟨r, hr, -⟩ := check_fresh_is_ok session mst nst now app_id fo ao
      exact ⟨r, hr⟩

/-- Total form of `_check_single_app`; `check_single_is_ok` shows the
default branch is unreachable. -/
def check_single_run (session : Bool) (mst : MonitorState) (nst : NotifState)
    (now : Int) (app_id : String) (fo : FetchOutcome) (ao : AppriseCallOutcome) :
    CheckResult :=
  match check_single_app session mst nst now app_id fo ao with
  | .ok r => r
  | .error _ => ⟨⟨app_id, false, now⟩, mst, nst, false, false⟩

theorem check_single_run_eq (session : Bool) (mst : MonitorState) (nst : NotifState)
    (now : Int) (app_id : String) (fo : FetchOutcome) (ao : AppriseCallOutcome)
    (r : CheckResult)
    (h : check_single_app session mst nst now app_id fo ao = .ok r) :
    check_single_run session mst nst now app_id fo ao = r := by
  unfold check_single_run
  rw [h]

/-- Fresh-path properties of the total form: the fetch happens, the
verdict and timestamp are stored, and the TTL is preserved. -/
theorem check_run_fresh_props (session : Bool) (mst : MonitorState)
    (nst : NotifState) (now : Int) (app_id : String) (fo : FetchOutcome)
    (ao : AppriseCallOutcome)
    (h : check_single_app session mst nst now app_id fo ao =
      check_fresh session mst nst now app_id fo ao) :
    (check_single_run session mst nst now app_id fo ao).fetched = true ∧
    (check_single_run session mst nst now app_id fo ao).data =
      ⟨app_id, fetch_availability session fo, now⟩ ∧
    (check_single_run session mst nst now app_id fo ao).monitor =
      ⟨insertAssoc mst.cache app_id
        ⟨now, ⟨app_id, fetch_availability session fo, now⟩⟩, mst.cache_ttl⟩ ∧
    (check_single_run session mst nst now app_id fo ao).notified =
      fetch_availability session fo := by
  unfold check_single_run
  rw [h]
  cases hf : fetch_availability session fo with
  | false =>
      rw [check_fresh_false session mst nst now app_id fo ao hf]
      exact ⟨rfl, rfl, rfl, rfl⟩
  | true =>
      rw [check_fresh_true session mst nst now app_id fo ao hf]
      exact ⟨rfl, rfl, rfl, rfl⟩

/-- `TestFlightMonitor.check_multiple_apps` / `run_cycle`: one cycle,
checking each configured app id in order; the clock gives the wall time
of the i-th check, and the oracles give the collaborator outcomes per
app id. -/
def check_multiple_apps (session : Bool) (clock : Nat → Int)
    (fetch : String → FetchOutcome) (dispatch : String → AppriseCallOutcome) :
    List String → Nat → MonitorState → NotifState →
    Except PyExc (List CheckResult × MonitorState × NotifState)
  | [], _, mst, nst => .ok ([], mst, nst)
  | app_id :: rest, i, mst, nst =>
      match check_single_app session mst nst (clock i) app_id
          (fetch app_id) (dispatch app_id) with
      | .error e => .error e
      | .ok r =>
          match check_multiple_apps session clock fetch dispatch rest (i + 1)
              r.monitor r.notif with
          | .error e => .error e
          | .ok (results, mst2, nst2) => .ok (r :: results, mst2, nst2)

/-- A cycle never fails and produces one result per configured app id. -/
theorem check_multiple_ok (session : Bool) (clock : Nat → Int)
    (fetch : String → FetchOutcome) (dispatch : String → AppriseCallOutcome) :
    ∀ (app_ids : List String) (i : Nat) (mst : MonitorState) (nst : NotifState),
      ∃ results mst2 nst2,
        check_multiple_apps session clock fetch dispatch app_ids i mst nst =
          .ok (results, mst2, nst2) ∧
        results.length = app_ids.length := by
  intro app_ids
  induction app_ids with
  | nil => exact fun i mst nst => ⟨[], mst, nst, rfl, rfl⟩
  | cons app_id rest ih =>
      intro i mst nst
      obtain ⟨r, hr⟩ := check_single_is_ok session mst nst (clock i) app_id
        (fetch app_id) (dispatch app_id)
      obtain ⟨results, mst2, nst2, hrest, hlen⟩ := ih (i + 1) r.monitor r.notif
      refine ⟨r :: results, mst2, nst2, ?_, by simp [hlen]⟩
      simp only [check_multiple_apps, hr, hrest]

/- ## Failure shapes of the fetch path -/

theorem fetch_availability_raises (session : Bool) (m : String) :
    fetch_availability session (.raises m) = false := by
  cases session <;> rfl

theorem fetch_availability_bad_status (session : Bool) (status : Int) (body : String)
    (h : status ≠ 200) :
    fetch_availability session (.response status body) = false := by
  cases session with
  | false => rfl
  | true => simp [fetch_availability, fetch_availability_try, h]

theorem fetch_availability_no_session (fo : FetchOutcome) :
    fetch_availability false fo = false := by
  cases fo <;> rfl

/- ## Scheduler (spec-modelled) -/

/-- Modelled from the spec: the Scheduler (`CLIApplication._monitor_loop`,
referenced by src/test_monitor.py) is not under src/.  Per spec section
3, `CycleState` holds the monotonically increasing cycle counter, the
current backoff duration and the consecutive-failure count. -/
structure CycleState where
  cycle : Nat
  backoff : ℚ
  failures : Nat
deriving DecidableEq, Repr

/-- Modelled from the spec: the scheduler parameters — base backoff,
maximum backoff (e.g. 300s) and growth factor (about 1.8). -/
structure SchedParams where
  base : ℚ
  maxBackoff : ℚ
  growth : ℚ
deriving DecidableEq, Repr

/-- Modelled from the spec: one Scheduler transition.  On cycle success
the backoff resets to its base value; on a cycle exception the backoff
is multiplied by the growth factor and capped at the maximum; the cycle
counter always increments. -/
def sched_step (p : SchedParams) (s : CycleState) (ok : Bool) : CycleState :=
  if ok then { cycle := s.cycle + 1, backoff := p.base, failures := 0 }
  else { cycle := s.cycle + 1,
         backoff := min (s.backoff * p.growth) p.maxBackoff,
         failures := s.failures + 1 }

/-- Modelled from the spec: run cycles until the first success (as in
the backoff test, which stops the loop after the success), returning the
final state and the list of backoff durations waited after each failed
cycle. -/
def sched_loop (p : SchedParams) (outcome : Nat → Bool) :
    Nat → CycleState → CycleState × List ℚ
  | 0, s => (s, [])
  | fuel + 1, s =>
      if outcome s.cycle then (sched_step p s true, [])
      else
        let r := sched_loop p outcome fuel (sched_step p s false)
        (r.1, s.backoff :: r.2)

/- ## Claims -/

/-- C2: the classifier is case-insensitive substring matching with
negative precedence — any negative marker forces `false` regardless of
positive matches, otherwise any positive marker gives `true`, and with
no marker of either set the result is `false`; in particular the three
example pages classify as stated. -/
theorem claim_C2_classifier_negative_precedence :
    (∀ content,
      negative_markers.any (fun n => str_contains (py_lower content) n) = true →
      interpret_page content = false) ∧
    (∀ content,
      negative_markers.any (fun n => str_contains (py_lower content) n) = false →
      positive_markers.any (fun p => str_contains (py_lower content) p) = true →
      interpret_page content = true) ∧
    (∀ content,
      negative_markers.any (fun n => str_contains (py_lower content) n) = false →
      positive_markers.any (fun p => str_contains (py_lower content) p) = false →
      interpret_page content = false) ∧
    interpret_page "... Join the beta ..." = true ∧
    interpret_page "This beta is full" = false ∧
    interpret_page "Welcome tester portal" = false := by
  refine ⟨?_, ?_, ?_, by decide, by decide, by decide⟩
  · intro content h
    simp only [interpret_page, h, if_true]
  · intro content hn hp
    simp only [interpret_page, hn, hp, Bool.false_eq_true, if_false, if_true]
  · intro content hn hp
    simp only [interpret_page, hn, hp, Bool.false_eq_true, if_false]

theorem claim_C2_classifier_negative_precedence_witness :
    interpret_page "beta is full but join the beta" = false ∧
    interpret_page "an open beta here" = true ∧
    interpret_page "plain page" = false :=
  ⟨claim_C2_classifier_negative_precedence.1 "beta is full but join the beta"
      (by decide),
   claim_C2_classifier_negative_precedence.2.1 "an open beta here"
      (by decide) (by decide),
   claim_C2_classifier_negative_precedence.2.2.1 "plain page"
      (by decide) (by decide)⟩

/-- C7: `send_notification` never raises back to its caller — for every
state, time, app id and Apprise outcome (including raised exceptions and
total failure across channels) it returns normally. -/
theorem claim_C7_notify_never_raises (st : NotifState) (now : Int)
    (app_id : Option String) (outcome : AppriseCallOutcome) :
    send_notification st now app_id outcome =
      Except.ok (send_notification_run st now app_id outcome) :=
  send_notification_never_raises st now app_id outcome

/-- C9: a `send_notification` call with `app_id = None` bypasses the
cooldown gate entirely — the dispatch call is made unconditionally,
whatever the recorded notification times, and the state (in particular
the cooldown record) is unchanged. -/
theorem claim_C9_none_app_id_bypasses_cooldown (st : NotifState) (now : Int)
    (outcome : AppriseCallOutcome) :
    send_notification_run st now none outcome =
      { notif := st, invoked := true, attempts := st.channels.length } :=
  send_run_none st now outcome

/-- C4: the notifier cooldown — a call inside the cooldown window skips
dispatch with no state change; after a dispatched call, a second call for
the same item within the window is skipped, while one at or beyond the
window dispatches; and over any trace of calls with nondecreasing times,
dispatches for the same item are pairwise at least a cooldown apart. -/
theorem claim_C4_cooldown_rate_limit :
    (∀ (st : NotifState) (now : Int) (a : String) (o : AppriseCallOutcome)
        (last_sent : Int),
      a ≠ "" → lookupAssoc st.last_notification a = some last_sent →
      now - last_sent < st.cooldown →
      send_notification_run st now (some a) o =
        { notif := st, invoked := false, attempts := 0 }) ∧
    (∀ (st : NotifState) (t1 t2 : Int) (a : String) (o1 o2 : AppriseCallOutcome),
      a ≠ "" →
      (send_notification_run st t1 (some a) o1).invoked = true →
      t2 - t1 < st.cooldown →
      (send_notification_run (send_notification_run st t1 (some a) o1).notif
        t2 (some a) o2).invoked = false) ∧
    (∀ (st : NotifState) (t1 t2 : Int) (a : String) (o1 o2 : AppriseCallOutcome),
      a ≠ "" →
      (send_notification_run st t1 (some a) o1).invoked = true →
      st.cooldown ≤ t2 - t1 →
      (send_notification_run (send_notification_run st t1 (some a) o1).notif
        t2 (some a) o2).invoked = true) ∧
    (∀ (a : String) (cd : Int) (calls : List NotifCall) (st : NotifState),
      a ≠ "" → st.cooldown = cd →
      List.Pairwise (fun c d => c.now ≤ d.now) calls →
      List.Pairwise (fun x y => x + cd ≤ y) (dispatched_times a st calls)) := by
  refine ⟨?_, ?_, ?_, ?_⟩
  · intro st now a o last_sent ha hl hcd
    exact send_run_skip st now a o last_sent ha hl hcd
  · intro st t1 t2 a o1 o2 ha hinv hcd
    have hrec := send_run_record_after st t1 a o1 ha hinv
    have hcool := send_run_cooldown st t1 (some a) o1
    rw [send_run_skip _ t2 a o2 t1 ha hrec (by rw [hcool]; exact hcd)]
  · intro st t1 t2 a o1 o2 ha hinv hcd
    have hrec := send_run_record_after st t1 a o1 ha hinv
    have hcool := send_run_cooldown st t1 (some a) o1
    rw [send_run_pass _ t2 a o2 ha ?_]
    intro last_sent hl
    rw [hrec] at hl
    injection hl with hl
    rw [hcool, ← hl]
    exact hcd
  · intro a cd calls st ha hcd hmono
    exact dispatched_times_pairwise a ha cd calls st hcd hmono

theorem claim_C4_cooldown_rate_limit_witness :
    send_notification_run ⟨[("ABCD", 0)], 600, ["chan"]⟩ 10 (some "ABCD")
      (.returns true) = ⟨⟨[("ABCD", 0)], 600, ["chan"]⟩, false, 0⟩ ∧
    (send_notification_run
      (send_notification_run ⟨[], 600, ["chan"]⟩ 0 (some "ABCD")
        (.returns true)).notif 10 (some "ABCD") (.returns true)).invoked
      = false ∧
    (send_notification_run
      (send_notification_run ⟨[], 600, ["chan"]⟩ 0 (some "ABCD")
        (.returns true)).notif 600 (some "ABCD") (.returns true)).invoked
      = true ∧
    List.Pairwise (fun x y => x + 600 ≤ y)
      (dispatched_times "ABCD" ⟨[], 600, ["chan"]⟩
        [⟨0, some "ABCD", .returns true⟩, ⟨10, some "ABCD", .returns true⟩,
         ⟨700, some "ABCD", .returns true⟩]) :=
  ⟨claim_C4_cooldown_rate_limit.1 ⟨[("ABCD", 0)], 600, ["chan"]⟩ 10 "ABCD"
      (.returns true) 0 (by decide) (by decide) (by decide),
   claim_C4_cooldown_rate_limit.2.1 ⟨[], 600, ["chan"]⟩ 0 10 "ABCD"
      (.returns true) (.returns true) (by decide) (by decide) (by decide),
   claim_C4_cooldown_rate_limit.2.2.1 ⟨[], 600, ["chan"]⟩ 0 600 "ABCD"
      (.returns true) (.returns true) (by decide) (by decide) (by decide),
   claim_C4_cooldown_rate_limit.2.2.2 "ABCD" 600
      [⟨0, some "ABCD", .returns true⟩, ⟨10, some "ABCD", .returns true⟩,
       ⟨700, some "ABCD", .returns true⟩] ⟨[], 600, ["chan"]⟩
      (by decide) (by decide) (by decide)⟩

/-- C6 counterexample: with zero configured channels, a non-skipped
notify call makes zero dispatch attempts and still creates the cooldown
record — refuting that the record is set only when at least one dispatch
attempt is made. -/
theorem claim_C6_counterexample :
    (send_notification_run ⟨[], 600, []⟩ 0 (some "ABCD")
      (.returns false)).attempts = 0 ∧
    (send_notification_run ⟨[], 600, []⟩ 0 (some "ABCD")
      (.returns false)).notif.last_notification = [("ABCD", 0)] := by
  decide

/-- C6 amended: on every non-skipped notify call with a truthy item id
the cooldown record is set to the current time, before the dispatch and
regardless of the channel count or dispatch outcome; a skipped call or
one with no item id leaves the state unchanged. -/
theorem claim_C6_record_updated_on_pass :
    (∀ (st : NotifState) (now : Int) (a : String) (o : AppriseCallOutcome),
      a ≠ "" → (send_notification_run st now (some a) o).invoked = true →
      lookupAssoc (send_notification_run st now (some a) o).notif.last_notification
        a = some now) ∧
    (∀ (st : NotifState) (now : Int) (a : String) (o : AppriseCallOutcome)
        (last_sent : Int),
      a ≠ "" → lookupAssoc st.last_notification a = some last_sent →
      now - last_sent < st.cooldown →
      (send_notification_run st now (some a) o).notif = st) ∧
    (∀ (st : NotifState) (now : Int) (o : AppriseCallOutcome),
      (send_notification_run st now none o).notif = st) := by
  refine ⟨?_, ?_, ?_⟩
  · intro st now a o ha hinv
    exact send_run_record_after st now a o ha hinv
  · intro st now a o last_sent ha hl hcd
    rw [send_run_skip st now a o last_sent ha hl hcd]
  · intro st now o
    rw [send_run_none]

theorem claim_C6_record_updated_on_pass_witness :
    lookupAssoc (send_notification_run ⟨[], 600, []⟩ 0 (some "ABCD")
      (.returns false)).notif.last_notification "ABCD" = some 0 ∧
    (send_notification_run ⟨[("ABCD", 0)], 600, []⟩ 10 (some "ABCD")
      (.returns false)).notif = ⟨[("ABCD", 0)], 600, []⟩ :=
  ⟨claim_C6_record_updated_on_pass.1 ⟨[], 600, []⟩ 0 "ABCD" (.returns false)
      (by decide) (by decide),
   claim_C6_record_updated_on_pass.2.1 ⟨[("ABCD", 0)], 600, []⟩ 10 "ABCD"
      (.returns false) 0 (by decide) (by decide) (by decide)⟩

/-- C1 counterexample: with a valid cache entry whose stored verdict is
true, the check yields a true verdict but no notification call is made
in that cycle — refuting that every true verdict (also one served from
cache) triggers a notification. -/
theorem claim_C1_counterexample :
    (check_single_run true ⟨[("ABCD", ⟨0, ⟨"ABCD", true, 0⟩⟩)], 300⟩
      ⟨[], 600, ["chan"]⟩ 10 "ABCD" (.response 200 "join the beta")
      (.returns true)).data.available = true ∧
    (check_single_run true ⟨[("ABCD", ⟨0, ⟨"ABCD", true, 0⟩⟩)], 300⟩
      ⟨[], 600, ["chan"]⟩ 10 "ABCD" (.response 200 "join the beta")
      (.returns true)).notified = false := by
  decide

/-- C1 amended: in every cycle each configured item is checked (the
cycle returns one result per item and never raises), and
`send_notification` is called for an item exactly when the check
performed a fresh fetch whose verdict is true; a true verdict served
from a valid cache entry does not trigger a notification. -/
theorem claim_C1_notify_on_fresh_true_verdict :
    (∀ (session : Bool) (clock : Nat → Int) (fetch : String → FetchOutcome)
        (dispatch : String → AppriseCallOutcome) (app_ids : List String)
        (i : Nat) (mst : MonitorState) (nst : NotifState),
      ∃ results mst2 nst2,
        check_multiple_apps session clock fetch dispatch app_ids i mst nst =
          .ok (results, mst2, nst2) ∧ results.length = app_ids.length) ∧
    (∀ (session : Bool) (mst : MonitorState) (nst : NotifState) (now : Int)
        (app_id : String) (fo : FetchOutcome) (ao : AppriseCallOutcome),
      (check_single_run session mst nst now app_id fo ao).notified = true ↔
      ((check_single_run session mst nst now app_id fo ao).fetched = true ∧
       (check_single_run session mst nst now app_id fo ao).data.available
         = true)) := by
  refine ⟨?_, ?_⟩
  · intro session clock fetch dispatch app_ids i mst nst
    exact check_multiple_ok session clock fetch dispatch app_ids i mst nst
  · intro session mst nst now app_id fo ao
    cases hl : lookupAssoc mst.cache app_id with
    | some cached =>
        by_cases hts : now - cached.timestamp < mst.cache_ttl
        · rw [check_single_run_eq session mst nst now app_id fo ao _
            (check_single_hit session mst nst now app_id fo ao cached hl hts)]
          simp
        · obtain ⟨hf, hd, -, hn⟩ := check_run_fresh_props session mst nst now
            app_id fo ao
            (check_single_stale session mst nst now app_id fo ao cached hl hts)
          rw [hf, hd, hn]
          cases fetch_availability session fo <;> simp
    | none =>
        obtain ⟨hf, hd, -, hn⟩ := check_run_fresh_props session mst nst now
          app_id fo ao (check_single_miss session mst nst now app_id fo ao hl)
        rw [hf, hd, hn]
        cases fetch_availability session fo <;> simp

/-- C3: the availability cache — a check with a cache entry younger than
the TTL returns the stored data without fetching or changing state; two
checks for the same item within the TTL fetch exactly once, the second
returning the identical stored data; and a check after the TTL fetches
again and overwrites the entry with the new verdict and timestamp. -/
theorem claim_C3_cache_ttl :
    (∀ (session : Bool) (mst : MonitorState) (nst : NotifState) (now : Int)
        (app_id : String) (fo : FetchOutcome) (ao : AppriseCallOutcome)
        (cached : CacheEntry),
      lookupAssoc mst.cache app_id = some cached →
      now - cached.timestamp < mst.cache_ttl →
      check_single_run session mst nst now app_id fo ao =
        ⟨cached.data, mst, nst, false, false⟩) ∧
    (∀ (session : Bool) (mst : MonitorState) (nst : NotifState) (t1 t2 : Int)
        (app_id : String) (fo fo2 : FetchOutcome) (ao ao2 : AppriseCallOutcome),
      lookupAssoc mst.cache app_id = none →
      t2 - t1 < mst.cache_ttl →
      (check_single_run session mst nst t1 app_id fo ao).fetched = true ∧
      (check_single_run session
        (check_single_run session mst nst t1 app_id fo ao).monitor
        (check_single_run session mst nst t1 app_id fo ao).notif
        t2 app_id fo2 ao2).fetched = false ∧
      (check_single_run session
        (check_single_run session mst nst t1 app_id fo ao).monitor
        (check_single_run session mst nst t1 app_id fo ao).notif
        t2 app_id fo2 ao2).data =
        (check_single_run session mst nst t1 app_id fo ao).data) ∧
    (∀ (session : Bool) (mst : MonitorState) (nst : NotifState) (now : Int)
        (app_id : String) (fo : FetchOutcome) (ao : AppriseCallOutcome)
        (cached : CacheEntry),
      lookupAssoc mst.cache app_id = some cached →
      ¬ now - cached.timestamp < mst.cache_ttl →
      (check_single_run session mst nst now app_id fo ao).fetched = true ∧
      lookupAssoc
        (check_single_run session mst nst now app_id fo ao).monitor.cache app_id
        = some ⟨now, (check_single_run session mst nst now app_id fo ao).data⟩ ∧
      (check_single_run session mst nst now app_id fo ao).data =
        ⟨app_id, fetch_availability session fo, now⟩) := by
  refine ⟨?_, ?_, ?_⟩
  · intro session mst nst now app_id fo ao cached hl hts
    exact check_single_run_eq session mst nst now app_id fo ao _
      (check_single_hit session mst nst now app_id fo ao cached hl hts)
  · intro session mst nst t1 t2 app_id fo fo2 ao ao2 hl hts
    obtain ⟨hf, hd, hm, -⟩ := check_run_fresh_props session mst nst t1
      app_id fo ao (check_single_miss session mst nst t1 app_id fo ao hl)
    refine ⟨hf, ?_, ?_⟩
    · rw [check_single_run_eq session _ _ t2 app_id fo2 ao2 _
        (check_single_hit session _ _ t2 app_id fo2 ao2
          ⟨t1, ⟨app_id, fetch_availability session fo, t1⟩⟩
          (by rw [hm]; exact lookup_insert_self _ _ _)
          (by rw [hm]; exact hts))]
    · rw [check_single_run_eq session _ _ t2 app_id fo2 ao2 _
        (check_single_hit session _ _ t2 app_id fo2 ao2
          ⟨t1, ⟨app_id, fetch_availability session fo, t1⟩⟩
          (by rw [hm]; exact lookup_insert_self _ _ _)
          (by rw [hm]; exact hts))]
      rw [hd]
  · intro session mst nst now app_id fo ao cached hl hts
    obtain ⟨hf, hd, hm, -⟩ := check_run_fresh_props session mst nst now
      app_id fo ao
      (check_single_stale session mst nst now app_id fo ao cached hl hts)
    refine ⟨hf, ?_, hd⟩
    rw [hm, hd]
    exact lookup_insert_self _ _ _

theorem claim_C3_cache_ttl_witness :
    check_single_run true ⟨[("ABCD", ⟨0, ⟨"ABCD", true, 0⟩⟩)], 300⟩
      ⟨[], 600, ["chan"]⟩ 10 "ABCD" (.raises "net") (.returns true) =
      ⟨⟨"ABCD", true, 0⟩, ⟨[("ABCD", ⟨0, ⟨"ABCD", true, 0⟩⟩)], 300⟩,
       ⟨[], 600, ["chan"]⟩, false, false⟩ ∧
    ((check_single_run true ⟨[], 300⟩ ⟨[], 600, ["chan"]⟩ 0 "ABCD"
        (.response 200 "an open beta") (.returns true)).fetched = true ∧
      (check_single_run true
        (check_single_run true ⟨[], 300⟩ ⟨[], 600, ["chan"]⟩ 0 "ABCD"
          (.response 200 "an open beta") (.returns true)).monitor
        (check_single_run true ⟨[], 300⟩ ⟨[], 600, ["chan"]⟩ 0 "ABCD"
          (.response 200 "an open beta") (.returns true)).notif
        10 "ABCD" (.raises "net") (.returns true)).fetched = false ∧
      (check_single_run true
        (check_single_run true ⟨[], 300⟩ ⟨[], 600, ["chan"]⟩ 0 "ABCD"
          (.response 200 "an open beta") (.returns true)).monitor
        (check_single_run true ⟨[], 300⟩ ⟨[], 600, ["chan"]⟩ 0 "ABCD"
          (.response 200 "an open beta") (.returns true)).notif
        10 "ABCD" (.raises "net") (.returns true)).data =
        (check_single_run true ⟨[], 300⟩ ⟨[], 600, ["chan"]⟩ 0 "ABCD"
          (.response 200 "an open beta") (.returns true)).data) ∧
    ((check_single_run true ⟨[("ABCD", ⟨0, ⟨"ABCD", true, 0⟩⟩)], 300⟩
        ⟨[], 600, ["chan"]⟩ 400 "ABCD" (.response 200 "beta is full")
        (.returns true)).fetched = true ∧
      lookupAssoc (check_single_run true ⟨[("ABCD", ⟨0, ⟨"ABCD", true, 0⟩⟩)], 300⟩
        ⟨[], 600, ["chan"]⟩ 400 "ABCD" (.response 200 "beta is full")
        (.returns true)).monitor.cache "ABCD" =
        some ⟨400, (check_single_run true ⟨[("ABCD", ⟨0, ⟨"ABCD", true, 0⟩⟩)], 300⟩
          ⟨[], 600, ["chan"]⟩ 400 "ABCD" (.response 200 "beta is full")
          (.returns true)).data⟩ ∧
      (check_single_run true ⟨[("ABCD", ⟨0, ⟨"ABCD", true, 0⟩⟩)], 300⟩
        ⟨[], 600, ["chan"]⟩ 400 "ABCD" (.response 200 "beta is full")
        (.returns true)).data =
        ⟨"ABCD", fetch_availability true (.response 200 "beta is full"), 400⟩) :=
  ⟨claim_C3_cache_ttl.1 true ⟨[("ABCD", ⟨0, ⟨"ABCD", true, 0⟩⟩)], 300⟩
      ⟨[], 600, ["chan"]⟩ 10 "ABCD" (.raises "net") (.returns true)
      ⟨0, ⟨"ABCD", true, 0⟩⟩ (by decide) (by decide),
   claim_C3_cache_ttl.2.1 true ⟨[], 300⟩ ⟨[], 600, ["chan"]⟩ 0 10 "ABCD"
      (.response 200 "an open beta") (.raises "net") (.returns true)
      (.returns true) (by decide) (by decide),
   claim_C3_cache_ttl.2.2 true ⟨[("ABCD", ⟨0, ⟨"ABCD", true, 0⟩⟩)], 300⟩
      ⟨[], 600, ["chan"]⟩ 400 "ABCD" (.response 200 "beta is full")
      (.returns true) ⟨0, ⟨"ABCD", true, 0⟩⟩ (by decide) (by decide)⟩

/-- C5: every fetch failure — a raised exception, a missing session or a
non-success HTTP status — yields a false verdict, and a cycle over any
item list never raises and produces one result per item. -/
theorem claim_C5_fetch_failure_failsafe :
    (∀ (session : Bool) (m : String),
      fetch_availability session (.raises m) = false) ∧
    (∀ (session : Bool) (status : Int) (body : String), status ≠ 200 →
      fetch_availability session (.response status body) = false) ∧
    (∀ fo : FetchOutcome, fetch_availability false fo = false) ∧
    (∀ (session : Bool) (clock : Nat → Int) (fetch : String → FetchOutcome)
        (dispatch : String → AppriseCallOutcome) (app_ids : List String)
        (i : Nat) (mst : MonitorState) (nst : NotifState),
      ∃ results mst2 nst2,
        check_multiple_apps session clock fetch dispatch app_ids i mst nst =
          .ok (results, mst2, nst2) ∧ results.length = app_ids.length) := by
  refine ⟨fetch_availability_raises, fetch_availability_bad_status,
    fetch_availability_no_session, ?_⟩
  intro session clock fetch dispatch app_ids i mst nst
  exact check_multiple_ok session clock fetch dispatch app_ids i mst nst

theorem claim_C5_fetch_failure_failsafe_witness :
    fetch_availability true (.raises "timeout") = false ∧
    fetch_availability true (.response 404 "missing") = false :=
  ⟨claim_C5_fetch_failure_failsafe.1 true "timeout",
   claim_C5_fetch_failure_failsafe.2.1 true 404 "missing" (by decide)⟩

/-- C10: a fetch failure is stored in the cache as a false verdict with
the current timestamp just like a fetched verdict, so any further check
within the TTL window serves false from the cache without fetching. -/
theorem claim_C10_failure_cached_as_false :
    ∀ (session : Bool) (mst : MonitorState) (nst : NotifState) (t1 t2 : Int)
      (app_id : String) (fo fo2 : FetchOutcome) (ao ao2 : AppriseCallOutcome),
      ((∃ m, fo = .raises m) ∨
        (∃ status body, fo = .response status body ∧ status ≠ 200) ∨
        session = false) →
      lookupAssoc mst.cache app_id = none →
      t2 - t1 < mst.cache_ttl →
      (check_single_run session mst nst t1 app_id fo ao).data =
        ⟨app_id, false, t1⟩ ∧
      lookupAssoc
        (check_single_run session mst nst t1 app_id fo ao).monitor.cache app_id
        = some ⟨t1, ⟨app_id, false, t1⟩⟩ ∧
      (check_single_run session
        (check_single_run session mst nst t1 app_id fo ao).monitor
        (check_single_run session mst nst t1 app_id fo ao).notif
        t2 app_id fo2 ao2).fetched = false ∧
      (check_single_run session
        (check_single_run session mst nst t1 app_id fo ao).monitor
        (check_single_run session mst nst t1 app_id fo ao).notif
        t2 app_id fo2 ao2).data.available = false := by
  intro session mst nst t1 t2 app_id fo fo2 ao ao2 hfail hl hts
  have hfa : fetch_availability session fo = false := by
    rcases hfail with ⟨m, hm⟩ | ⟨status, body, hsb, hs⟩ | hs
    · rw [hm]; exact fetch_availability_raises session m
    · rw [hsb]; exact fetch_availability_bad_status session status body hs
    · rw [hs]; exact fetch_availability_no_session fo
  obtain ⟨hf, hd, hm, -⟩ := check_run_fresh_props session mst nst t1
    app_id fo ao (check_single_miss session mst nst t1 app_id fo ao hl)
  rw [hfa] at hd hm
  refine ⟨hd, ?_, ?_, ?_⟩
  · rw [hm]; exact lookup_insert_self _ _ _
  · rw [check_single_run_eq session _ _ t2 app_id fo2 ao2 _
      (check_single_hit session _ _ t2 app_id fo2 ao2
        ⟨t1, ⟨app_id, false, t1⟩⟩
        (by rw [hm]; exact lookup_insert_self _ _ _)
        (by rw [hm]; exact hts))]
  · rw [check_single_run_eq session _ _ t2 app_id fo2 ao2 _
      (check_single_hit session _ _ t2 app_id fo2 ao2
        ⟨t1, ⟨app_id, false, t1⟩⟩
        (by rw [hm]; exact lookup_insert_self _ _ _)
        (by rw [hm]; exact hts))]

theorem claim_C10_failure_cached_as_false_witness :
    (check_single_run true ⟨[], 300⟩ ⟨[], 600, ["chan"]⟩ 0 "ABCD"
      (.raises "timeout") (.returns true)).data = ⟨"ABCD", false, 0⟩ ∧
    lookupAssoc (check_single_run true ⟨[], 300⟩ ⟨[], 600, ["chan"]⟩ 0 "ABCD"
      (.raises "timeout") (.returns true)).monitor.cache "ABCD" =
      some ⟨0, ⟨"ABCD", false, 0⟩⟩ ∧
    (check_single_run true
      (check_single_run true ⟨[], 300⟩ ⟨[], 600, ["chan"]⟩ 0 "ABCD"
        (.raises "timeout") (.returns true)).monitor
      (check_single_run true ⟨[], 300⟩ ⟨[], 600, ["chan"]⟩ 0 "ABCD"
        (.raises "timeout") (.returns true)).notif
      10 "ABCD" (.response 200 "an open beta") (.returns true)).fetched
      = false ∧
    (check_single_run true
      (check_single_run true ⟨[], 300⟩ ⟨[], 600, ["chan"]⟩ 0 "ABCD"
        (.raises "timeout") (.returns true)).monitor
      (check_single_run true ⟨[], 300⟩ ⟨[], 600, ["chan"]⟩ 0 "ABCD"
        (.raises "timeout") (.returns true)).notif
      10 "ABCD" (.response 200 "an open beta") (.returns true)).data.available
      = false :=
  claim_C10_failure_cached_as_false true ⟨[], 300⟩ ⟨[], 600, ["chan"]⟩ 0 10
    "ABCD" (.raises "timeout") (.response 200 "an open beta") (.returns true)
    (.returns true) (Or.inl ⟨"timeout", rfl⟩) (by decide) (by decide)

/-- C8: the Scheduler backoff stays within `[base, max]` across
transitions; a successful cycle resets it to the base, a failed cycle
multiplies it by the growth factor capped at the maximum; and with a
cycle function failing on attempts 1 and 2 and succeeding on attempt 3,
exactly three cycle invocations occur, the backoffs waited between the
failures strictly increase, and the backoff resets after the success. -/
theorem claim_C8_backoff_bounded :
    (∀ (p : SchedParams) (s : CycleState) (ok : Bool),
      0 ≤ p.base → p.base ≤ p.maxBackoff → 1 ≤ p.growth →
      p.base ≤ s.backoff → s.backoff ≤ p.maxBackoff →
      p.base ≤ (sched_step p s ok).backoff ∧
        (sched_step p s ok).backoff ≤ p.maxBackoff) ∧
    (∀ (p : SchedParams) (s : CycleState),
      (sched_step p s true).backoff = p.base) ∧
    (∀ (p : SchedParams) (s : CycleState),
      (sched_step p s false).backoff =
        min (s.backoff * p.growth) p.maxBackoff) ∧
    (∀ p : SchedParams, 0 < p.base → p.base < p.maxBackoff → 1 < p.growth →
      p.base * p.growth ≤ p.maxBackoff →
      sched_loop p (fun n => decide (2 ≤ n)) 5 ⟨0, p.base, 0⟩ =
        (⟨3, p.base, 0⟩, [p.base, p.base * p.growth]) ∧
      p.base < p.base * p.growth) := by
  refine ⟨?_, fun p s => rfl, fun p s => rfl, ?_⟩
  · intro p s ok hb0 hbm hg hlb hub
    cases ok with
    | true => exact ⟨le_refl p.base, hbm⟩
    | false =>
        refine ⟨le_min ?_ hbm, min_le_right _ _⟩
        have hs0 : (0 : ℚ) ≤ s.backoff := le_trans hb0 hlb
        calc p.base ≤ s.backoff := hlb
          _ ≤ s.backoff * p.growth := le_mul_of_one_le_right hs0 hg
  · intro p h0 hbm hg hcap
    have hmin : min (p.base * p.growth) p.maxBackoff = p.base * p.growth :=
      min_eq_left hcap
    have hlt : p.base < p.base * p.growth := by
      calc p.base = p.base * 1 := (mul_one p.base).symm
        _ < p.base * p.growth := by
            exact mul_lt_mul_of_pos_left hg h0
    refine ⟨?_, hlt⟩
    simp [sched_loop, sched_step, hmin]

theorem claim_C8_backoff_bounded_witness :
    ((5 : ℚ) ≤ (sched_step ⟨5, 300, 9 / 5⟩ ⟨0, 5, 0⟩ false).backoff ∧
      (sched_step ⟨5, 300, 9 / 5⟩ ⟨0, 5, 0⟩ false).backoff ≤ 300) ∧
    (sched_loop ⟨5, 300, 9 / 5⟩ (fun n => decide (2 ≤ n)) 5 ⟨0, 5, 0⟩ =
      (⟨3, 5, 0⟩, [5, 5 * (9 / 5)]) ∧ (5 : ℚ) < 5 * (9 / 5)) :=
  ⟨claim_C8_backoff_bounded.1 ⟨5, 300, 9 / 5⟩ ⟨0, 5, 0⟩ false
      (by norm_num) (by norm_num) (by norm_num) (by norm_num) (by norm_num),
   claim_C8_backoff_bounded.2.2.2 ⟨5, 300, 9 / 5⟩
      (by norm_num) (by norm_num) (by norm_num) (by norm_num)⟩

end TFM
